import Mathlib

/-!
Verification of the safe-swim-nyc beach weather tool
(`src/mastra/tools/beachWeatherTool.ts`).

The TypeScript source is shallowly embedded below: JS numbers become `ℚ`,
an optional numeric field becomes `Option ℚ`, and the ambient effects of
`getBeachWeather` (the network fetch, the system clock read inside
`getUVWarning`, the generation timestamp) are reified as explicit
parameters. Statements about the classification and recommendation logic
follow the embedded definitions.
-/

namespace SafeSwim

/-- JS `String.prototype.toLowerCase`, restricted to the ASCII range
(`Char.toLower` lowercases only `A`–`Z`), which covers every string the
tool compares against. -/
def toLowerCase (s : String) : String :=
  String.mk (s.data.map Char.toLower)

/-- JS `String.prototype.trim` on ASCII whitespace: drop leading and
trailing whitespace characters. -/
def jsTrim (s : String) : String :=
  String.mk (((s.data.dropWhile Char.isWhitespace).reverse.dropWhile
    Char.isWhitespace).reverse)

/-- JS `String.prototype.includes`: `jsIncludes s pat` is `true` iff `pat`
occurs as a contiguous substring of `s`. -/
def jsIncludes (s pat : String) : Bool :=
  (List.range (s.data.length + 1)).any fun i => pat.data.isPrefixOf (s.data.drop i)

/-- JS `Math.round`: round half towards positive infinity. -/
def jsRound (q : ℚ) : ℤ :=
  (q + 1/2).floor

/-- One entry of the `beachCoordinates` record (source lines 5–15). -/
structure BeachInfo where
  lat : ℚ
  lon : ℚ
  name : String
deriving DecidableEq

/-- The `beachCoordinates` record (source lines 5–15), as an association
list in the source's insertion order (the order JS `Object.keys` reports
for string keys). -/
def beachCoordinates : List (String × BeachInfo) :=
  [ ("coney island", ⟨40.5755, -73.9707, "Coney Island Beach"⟩),
    ("brighton beach", ⟨40.5776, -73.9614, "Brighton Beach"⟩),
    ("manhattan beach", ⟨40.5888, -73.9378, "Manhattan Beach"⟩),
    ("rockaway beach", ⟨40.5892, -73.8131, "Rockaway Beach"⟩),
    ("orchard beach", ⟨40.8670, -73.7854, "Orchard Beach"⟩),
    ("south beach", ⟨40.5886, -74.0776, "South Beach"⟩),
    ("midland beach", ⟨40.5653, -74.0845, "Midland Beach"⟩),
    ("cedar grove beach", ⟨40.5434, -74.1045, "Cedar Grove Beach"⟩),
    ("wolfes pond beach", ⟨40.5234, -74.1987, "Wolfe\x27s Pond Beach"⟩) ]

/-- `Object.keys(beachCoordinates)`, in insertion order. -/
def beachKeys : List String :=
  beachCoordinates.map Prod.fst

/-- The error thrown on a failed lookup (source line 91): it carries the
requested name and enumerates the available keys in its message. -/
inductive BeachError where
  | notFound (requested : String) (availableKeys : List String)
deriving DecidableEq

/-- The key list attached to a `BeachError`. -/
def BeachError.keys : BeachError → List String
  | .notFound _ ks => ks

/-- The location-resolution step of `getBeachWeather` (source lines 87–92):
normalize the name with `toLowerCase().trim()`, look it up in
`beachCoordinates`, and on a miss fail with the error enumerating
`Object.keys(beachCoordinates)`. -/
def resolveBeach (beachName : String) : Except BeachError BeachInfo :=
  let normalizedName := jsTrim (toLowerCase beachName)
  match beachCoordinates.lookup normalizedName with
  | some beach => .ok beach
  | none => .error (.notFound beachName beachKeys)

/-- First entry of the payload's `weather` array (the source reads only
`weather[0]`); field `id` is never read and is omitted. -/
structure WeatherDesc where
  main : String
  description : String

/-- The payload's `main` object; `temp_min` and `temp_max` are never read
and are omitted. -/
structure MainData where
  temp : ℚ
  feels_like : ℚ
  pressure : ℚ
  humidity : ℚ

/-- The payload's `wind` object; `gust` is optional in the provider
contract (`gust?: number`). -/
structure WindData where
  speed : ℚ
  deg : ℚ
  gust : Option ℚ

/-- The payload's `clouds` object. -/
structure CloudsData where
  all : ℚ

/-- The `OpenWeatherResponse` payload (source lines 17–46), restricted to
the fields the tool reads (`dt`, `sys` and `name` are never read). -/
structure OpenWeatherResponse where
  weather : WeatherDesc
  main : MainData
  visibility : ℚ
  wind : WindData
  clouds : CloudsData

/-- `getSafetyAssessment` (source lines 147–170): a cascade of severity
checks on the raw payload values, most severe first. -/
def getSafetyAssessment (w : OpenWeatherResponse) : String :=
  if jsIncludes (toLowerCase w.weather.main) "thunderstorm" = true ∨
      jsIncludes (toLowerCase w.weather.main) "storm" = true then
    "DANGEROUS - DO NOT SWIM"
  else if w.wind.speed > 15 ∨ w.main.temp < 60 ∨
      jsIncludes (toLowerCase w.weather.main) "rain" = true ∨
      w.visibility < 1000 then
    "POOR - Swimming not recommended"
  else if w.wind.speed > 10 ∨ w.main.temp < 70 ∨
      jsIncludes (toLowerCase w.weather.main) "drizzle" = true ∨
      w.clouds.all > 80 then
    "CAUTION - Be careful, check with lifeguards"
  else
    "GOOD - Safe for swimming"

/-- Advisory string of source line 184 (always pushed first). -/
def lifeguardLine : String :=
  "\uf8ff\u00fc\u00e8\u00e4 Swim only when lifeguards are on duty (10 AM - 6 PM during beach season)"

/-- Advisory string of source line 188 (thunderstorm). -/
def thunderstormLine : String :=
  "\u201a\u00f6\u2020\u00d4\u220f\u00e8 DANGER: Exit water immediately - lightning and severe weather risk"

/-- Advisory string of source line 192 (rain). -/
def rainLine : String :=
  "\uf8ff\u00fc\u00e5\u00df\u00d4\u220f\u00e8 Rainy conditions - poor visibility and potential water quality issues"

/-- Advisory string of source line 197 (gust > 20). -/
def gustLine : String :=
  "\uf8ff\u00fc\u00ed\u00ae Very strong wind gusts - dangerous wave conditions likely"

/-- Advisory string of source line 199 (wind > 15). -/
def ripCurrentLine : String :=
  "\uf8ff\u00fc\u00e5\u00e4 High winds create dangerous rip currents - extreme caution advised"

/-- Advisory string of source line 201 (wind > 10). -/
def moderateWindLine : String :=
  "\uf8ff\u00fc\u00e5\u00a8\u00d4\u220f\u00e8 Moderate winds may create strong currents - stay alert"

/-- Advisory string of source line 206 (temp < 65). -/
def coldLine : String :=
  "\uf8ff\u00fc\u00df\u2022 Cold air temperature - water will be very cold, hypothermia risk"

/-- Advisory string of source line 208 (temp < 75). -/
def coolLine : String :=
  "\uf8ff\u00fc\u00e5\u00b0\u00d4\u220f\u00e8 Cool conditions - water may feel cold, consider wetsuit"

/-- Advisory string of source line 212 (feels-like > 90). -/
def veryHotLine : String :=
  "\uf8ff\u00fc\u00ee\u2022 Very hot conditions - frequent water breaks and shade essential"

/-- Advisory string of source line 214 (feels-like > 85). -/
def hotDayLine : String :=
  "\u201a\u00f2\u00c4\u00d4\u220f\u00e8 Hot day - apply sunscreen frequently, stay hydrated"

/-- Advisory string of source line 219 (visibility < 1000). -/
def visibilityLine : String :=
  "\uf8ff\u00fc\u00eb\u00c5\u00d4\u220f\u00e8 Poor visibility - difficulty seeing hazards in water"

/-- Advisory string of source line 223 (humidity > 80 and temp > 80). -/
def humidityLine : String :=
  "\uf8ff\u00fc\u00ed\u00df High humidity - heat exhaustion risk, take frequent breaks"

/-- Advisory string of source line 228 (clear, temp > 75, wind < 10). -/
def excellentLine : String :=
  "\u201a\u00fa\u00d6 Excellent beach conditions - perfect for swimming and beach activities"

/-- JS guard `windGust && windGust > 20` (source line 196), where
`windGust` may be `undefined`: both `undefined` and `0` are falsy, so the
conjunction short-circuits to false for them. -/
def gustOver20 : Option ℚ → Bool
  | none => false
  | some v => decide (v ≠ 0) && decide (v > 20)

/-- `getRecommendations` (source lines 173–231): the pushed advisory
lines, written as the concatenation of one segment per `if` statement. -/
def getRecommendations (w : OpenWeatherResponse) : List String :=
  [lifeguardLine]
    ++ (if jsIncludes (toLowerCase w.weather.main) "thunderstorm" = true then
          [thunderstormLine] else [])
    ++ (if jsIncludes (toLowerCase w.weather.main) "rain" = true then
          [rainLine] else [])
    ++ (if gustOver20 w.wind.gust = true then [gustLine]
        else if w.wind.speed > 15 then [ripCurrentLine]
        else if w.wind.speed > 10 then [moderateWindLine]
        else [])
    ++ (if w.main.temp < 65 then [coldLine]
        else if w.main.temp < 75 then [coolLine]
        else [])
    ++ (if w.main.feels_like > 90 then [veryHotLine]
        else if w.main.feels_like > 85 then [hotDayLine]
        else [])
    ++ (if w.visibility < 1000 then [visibilityLine] else [])
    ++ (if w.main.humidity > 80 ∧ w.main.temp > 80 then
          [humidityLine] else [])
    ++ (if jsIncludes (toLowerCase w.weather.main) "clear" = true ∧
          w.main.temp > 75 ∧ w.wind.speed < 10 then
          [excellentLine] else [])

/-- `getUVWarning` (source lines 235–252); the source reads the hour from
the system clock (`new Date().getHours()`), reified here as the `hour`
parameter. -/
def getUVWarning (w : OpenWeatherResponse) (hour : ℕ) : Option String :=
  if hour ≥ 10 ∧ hour ≤ 16 ∧ w.clouds.all < 30 ∧ w.main.temp > 70 then
    some "High UV exposure risk - use SPF 30+ sunscreen and reapply every 2 hours"
  else if hour ≥ 9 ∧ hour ≤ 17 ∧ w.clouds.all < 70 then
    some "Moderate UV exposure - sunscreen recommended"
  else
    none

/-- The safety sub-record assembled on source lines 131–135: verdict,
recommendation list and optional UV advisory from one payload and one
evaluation hour. -/
def classify (w : OpenWeatherResponse) (hour : ℕ) :
    String × List String × Option String :=
  (getSafetyAssessment w, getRecommendations w, getUVWarning w hour)

/-- The `weather` display sub-record of the result (source lines 118–130). -/
structure WeatherReport where
  temperature : ℤ
  feelsLike : ℤ
  humidity : ℚ
  windSpeed : ℤ
  windDirection : ℚ
  windGust : Option ℤ
  conditions : String
  description : String
  visibility : ℚ
  pressure : ℚ
  cloudCover : ℚ
deriving DecidableEq

/-- The `safety` sub-record of the result (source lines 131–135). -/
structure SafetyReport where
  swimmingConditions : String
  recommendations : List String
  uvWarning : Option String
deriving DecidableEq

/-- The resolved coordinates sub-record (source lines 114–117). -/
structure Coordinates where
  latitude : ℚ
  longitude : ℚ
deriving DecidableEq

/-- The structured result of `getBeachWeather` (source lines 112–137). -/
structure BeachWeatherResult where
  beach : String
  coordinates : Coordinates
  weather : WeatherReport
  safety : SafetyReport
  timestamp : String

/-- Result assembly of `getBeachWeather` (source lines 112–137), with the
network fetch already performed (`weatherData` is the decoded payload),
the system-clock hour used by `getUVWarning` reified as `hour`, and the
generation timestamp reified as `timestamp`. Note line 124: JS
`weatherData.wind.gust ? Math.round(weatherData.wind.gust) : undefined`
tests truthiness, so a gust of `0` takes the `undefined` branch. -/
def getBeachWeatherResult (beach : BeachInfo) (weatherData : OpenWeatherResponse)
    (hour : ℕ) (timestamp : String) : BeachWeatherResult :=
  { beach := beach.name
    coordinates := { latitude := beach.lat, longitude := beach.lon }
    weather :=
      { temperature := jsRound weatherData.main.temp
        feelsLike := jsRound weatherData.main.feels_like
        humidity := weatherData.main.humidity
        windSpeed := jsRound weatherData.wind.speed
        windDirection := weatherData.wind.deg
        windGust :=
          match weatherData.wind.gust with
          | none => none
          | some v => if v ≠ 0 then some (jsRound v) else none
        conditions := weatherData.weather.main
        description := weatherData.weather.description
        visibility := (jsRound (weatherData.visibility / 1609.34 * 10) : ℚ) / 10
        pressure := weatherData.main.pressure
        cloudCover := weatherData.clouds.all }
    safety :=
      { swimmingConditions := getSafetyAssessment weatherData
        recommendations := getRecommendations weatherData
        uvWarning := getUVWarning weatherData hour }
    timestamp := timestamp }

/-! Severity tiers and rule predicates, used to state that the cascade
in `getSafetyAssessment` reports the most severe matching tier. -/

/-- The ordered, closed set of severity tiers. -/
inductive Tier where
  | good
  | caution
  | poor
  | dangerous
deriving DecidableEq

/-- Numeric severity rank of a tier. -/
def Tier.severity : Tier → ℕ
  | .good => 0
  | .caution => 1
  | .poor => 2
  | .dangerous => 3

/-- The more severe of two tiers. -/
def Tier.sup (a b : Tier) : Tier :=
  if a.severity ≤ b.severity then b else a

/-- The most severe tier in a list, `good` when none matched. -/
def mostSevere (l : List Tier) : Tier :=
  l.foldr Tier.sup .good

/-- The verdict string the source returns for each tier. -/
def tierMessage : Tier → String
  | .dangerous => "DANGEROUS - DO NOT SWIM"
  | .poor => "POOR - Swimming not recommended"
  | .caution => "CAUTION - Be careful, check with lifeguards"
  | .good => "GOOD - Safe for swimming"

/-- The closed condition vocabulary of the spec. -/
inductive ConditionCategory where
  | thunderstorm
  | rain
  | drizzle
  | clouds
  | clear
  | other
deriving DecidableEq

/-- Modelled from the spec: §4.2 condition-category derivation, which is
not a separate function in the source — map the free-text primary
condition to the closed vocabulary by case-insensitive substring match in
the fixed priority order thunderstorm > rain > drizzle > clouds > clear >
other. -/
def specConditionCategory (text : String) : ConditionCategory :=
  if jsIncludes (toLowerCase text) "thunderstorm" = true then .thunderstorm
  else if jsIncludes (toLowerCase text) "rain" = true then .rain
  else if jsIncludes (toLowerCase text) "drizzle" = true then .drizzle
  else if jsIncludes (toLowerCase text) "clouds" = true then .clouds
  else if jsIncludes (toLowerCase text) "clear" = true then .clear
  else .other

/-- Modelled from the spec: claim C1's verdict rules read literally, with
the DANGEROUS rule keyed to the derived condition category being
`thunderstorm` (and the POOR/CAUTION rules keyed to `rain`/`drizzle`). -/
def specC1Verdict (w : OpenWeatherResponse) : String :=
  if specConditionCategory w.weather.main = .thunderstorm then
    "DANGEROUS - DO NOT SWIM"
  else if w.wind.speed > 15 ∨ w.main.temp < 60 ∨
      specConditionCategory w.weather.main = .rain ∨ w.visibility < 1000 then
    "POOR - Swimming not recommended"
  else if w.wind.speed > 10 ∨ w.main.temp < 70 ∨
      specConditionCategory w.weather.main = .drizzle ∨ w.clouds.all > 80 then
    "CAUTION - Be careful, check with lifeguards"
  else
    "GOOD - Safe for swimming"

/-- The DANGEROUS rule as the source implements it: the condition category
is `thunderstorm`, or the lowercased condition text contains `storm`
(source line 154 also tests `includes('storm')`). -/
def dangerousMatches (w : OpenWeatherResponse) : Prop :=
  specConditionCategory w.weather.main = .thunderstorm ∨
    jsIncludes (toLowerCase w.weather.main) "storm" = true

/-- The POOR severity rule: wind speed > 15 mph, or air temperature
< 60°F, or condition category `rain`, or visibility < 1000 m. -/
def poorMatches (w : OpenWeatherResponse) : Prop :=
  w.wind.speed > 15 ∨ w.main.temp < 60 ∨
    specConditionCategory w.weather.main = .rain ∨ w.visibility < 1000

/-- The CAUTION severity rule: wind speed > 10 mph, or air temperature
< 70°F, or condition category `drizzle`, or cloud cover > 80%. -/
def cautionMatches (w : OpenWeatherResponse) : Prop :=
  w.wind.speed > 10 ∨ w.main.temp < 70 ∨
    specConditionCategory w.weather.main = .drizzle ∨ w.clouds.all > 80

instance (w : OpenWeatherResponse) : Decidable (dangerousMatches w) := by
  unfold dangerousMatches; infer_instance

instance (w : OpenWeatherResponse) : Decidable (poorMatches w) := by
  unfold poorMatches; infer_instance

instance (w : OpenWeatherResponse) : Decidable (cautionMatches w) := by
  unfold cautionMatches; infer_instance

/-- The tiers whose severity rule matches an observation, each rule
checked independently of the others. -/
def matchedTiers (w : OpenWeatherResponse) : List Tier :=
  (if dangerousMatches w then [Tier.dangerous] else []) ++
    (if poorMatches w then [Tier.poor] else []) ++
    (if cautionMatches w then [Tier.caution] else [])

/-! Wind-advisory selection, for the gust-precedence claim. -/

/-- Whether an advisory string is one of the three wind-related lines. -/
def windRelated (s : String) : Bool :=
  s == gustLine || s == ripCurrentLine || s == moderateWindLine

/-- The wind advisory as the spec states it for sustained wind alone:
rip-current warning above 15 mph, else moderate-wind caution above
10 mph, else nothing. -/
def windBySpeed (speed : ℚ) : List String :=
  if speed > 15 then [ripCurrentLine]
  else if speed > 10 then [moderateWindLine]
  else []

/-- Modelled from the spec: the claim's wind-advisory selection — when a
gust value is present and > 20 mph only the severe-gust warning appears,
otherwise the sustained-wind rules apply. -/
def specWindAdvisory (w : OpenWeatherResponse) : List String :=
  match w.wind.gust with
  | some v => if v > 20 then [gustLine] else windBySpeed w.wind.speed
  | none => windBySpeed w.wind.speed

/-- All thirteen advisory strings in the fixed order the source pushes
them. -/
def masterRecommendationOrder : List String :=
  [lifeguardLine, thunderstormLine, rainLine, gustLine, ripCurrentLine,
    moderateWindLine, coldLine, coolLine, veryHotLine, hotDayLine,
    visibilityLine, humidityLine, excellentLine]

/-! Payload variant with an absent `main.temp`, for the
missing-required-field claim. The source performs no presence validation:
a missing JS field reads as `undefined`, and every numeric comparison
against `undefined` is false (NaN comparison semantics). -/

/-- JS `<` whose left operand may be `undefined`: `undefined < c` is
`false`. -/
def jsLtU : Option ℚ → ℚ → Bool
  | none, _ => false
  | some v, c => decide (v < c)

/-- The payload's `main` object with `temp` possibly absent. -/
structure MainDataU where
  temp : Option ℚ
  feels_like : ℚ
  pressure : ℚ
  humidity : ℚ

/-- A raw payload in which `main.temp` may be structurally missing. -/
structure OpenWeatherResponseU where
  weather : WeatherDesc
  main : MainDataU
  visibility : ℚ
  wind : WindData
  clouds : CloudsData

/-- `getSafetyAssessment` re-read on the variant payload: the identical
cascade of source lines 147–170, with the two temperature comparisons
evaluated under JS `undefined` semantics. The source has no validation
step, so this function is reached even when `main.temp` is absent. -/
def getSafetyAssessmentU (w : OpenWeatherResponseU) : String :=
  if jsIncludes (toLowerCase w.weather.main) "thunderstorm" = true ∨
      jsIncludes (toLowerCase w.weather.main) "storm" = true then
    "DANGEROUS - DO NOT SWIM"
  else if w.wind.speed > 15 ∨ jsLtU w.main.temp 60 = true ∨
      jsIncludes (toLowerCase w.weather.main) "rain" = true ∨
      w.visibility < 1000 then
    "POOR - Swimming not recommended"
  else if w.wind.speed > 10 ∨ jsLtU w.main.temp 70 = true ∨
      jsIncludes (toLowerCase w.weather.main) "drizzle" = true ∨
      w.clouds.all > 80 then
    "CAUTION - Be careful, check with lifeguards"
  else
    "GOOD - Safe for swimming"

/-! Concrete observations used in counterexamples and witnesses. -/

/-- A benign clear-sky observation. -/
def wClear : OpenWeatherResponse :=
  { weather := ⟨"Clear", "clear sky"⟩
    main := ⟨80, 82, 1015, 50⟩
    visibility := 10000
    wind := ⟨5, 180, none⟩
    clouds := ⟨10⟩ }

/-- Benign fields with a condition text that contains `storm` but not
`thunderstorm`. -/
def wTropicalStorm : OpenWeatherResponse :=
  { weather := ⟨"Tropical Storm", "tropical storm conditions"⟩
    main := ⟨80, 82, 1015, 50⟩
    visibility := 10000
    wind := ⟨5, 180, none⟩
    clouds := ⟨10⟩ }

/-- Benign fields with a condition text that contains both a thunderstorm
cue and a rain cue. -/
def wThunderRain : OpenWeatherResponse :=
  { weather := ⟨"Thunderstorm with rain", "thunderstorm with heavy rain"⟩
    main := ⟨80, 82, 1015, 50⟩
    visibility := 10000
    wind := ⟨5, 180, none⟩
    clouds := ⟨10⟩ }

/-- Benign clear-sky observation whose provider supplies a wind gust of
exactly 0. -/
def wGustZero : OpenWeatherResponse :=
  { weather := ⟨"Clear", "clear sky"⟩
    main := ⟨80, 82, 1015, 50⟩
    visibility := 10000
    wind := ⟨5, 180, some 0⟩
    clouds := ⟨10⟩ }

/-- The same observation as `wGustZero` with the gust field omitted
entirely. -/
def wGustAbsent : OpenWeatherResponse :=
  { weather := ⟨"Clear", "clear sky"⟩
    main := ⟨80, 82, 1015, 50⟩
    visibility := 10000
    wind := ⟨5, 180, none⟩
    clouds := ⟨10⟩ }

/-- An observation whose raw air temperature is 59.6°F, which rounds to
60 for display. -/
def wTemp596 : OpenWeatherResponse :=
  { weather := ⟨"Clear", "clear sky"⟩
    main := ⟨59.6, 60, 1015, 50⟩
    visibility := 10000
    wind := ⟨5, 180, none⟩
    clouds := ⟨10⟩ }

/-- A raw payload identical to `wClear` except that `main.temp` is
structurally absent. -/
def wMissingTemp : OpenWeatherResponseU :=
  { weather := ⟨"Clear", "clear sky"⟩
    main := ⟨none, 82, 1015, 50⟩
    visibility := 10000
    wind := ⟨5, 180, none⟩
    clouds := ⟨10⟩ }

/-- The first entry of the coordinate table, used where a resolved beach
is needed. -/
def coneyIsland : BeachInfo :=
  ⟨40.5755, -73.9707, "Coney Island Beach"⟩

/-- A fixed ISO-8601 generation timestamp. -/
def sampleTimestamp : String :=
  "2026-10-11T12:00:00.000Z"

/-! Helper lemmas about the conditional segments the recommendation list
is built from. -/

theorem mem_ifSingleton {α : Type} (a s : α) (c : Prop) [Decidable c] :
    a ∈ (if c then [s] else ([] : List α)) ↔ c ∧ a = s := by
  by_cases h : c <;> simp [h]

theorem mem_ifPair {α : Type} (a s₁ s₂ : α) (c₁ c₂ : Prop)
    [Decidable c₁] [Decidable c₂] :
    a ∈ (if c₁ then [s₁] else if c₂ then [s₂] else ([] : List α)) ↔
      (c₁ ∧ a = s₁) ∨ (¬c₁ ∧ c₂ ∧ a = s₂) := by
  by_cases h₁ : c₁ <;> by_cases h₂ : c₂ <;> simp [h₁, h₂]

theorem mem_ifTriple {α : Type} (a s₁ s₂ s₃ : α) (c₁ c₂ c₃ : Prop)
    [Decidable c₁] [Decidable c₂] [Decidable c₃] :
    a ∈ (if c₁ then [s₁] else if c₂ then [s₂] else if c₃ then [s₃]
        else ([] : List α)) ↔
      (c₁ ∧ a = s₁) ∨ (¬c₁ ∧ c₂ ∧ a = s₂) ∨ (¬c₁ ∧ ¬c₂ ∧ c₃ ∧ a = s₃) := by
  by_cases h₁ : c₁ <;> by_cases h₂ : c₂ <;> by_cases h₃ : c₃ <;>
    simp [h₁, h₂, h₃]

theorem filter_ifSingleton_neg {α : Type} (p : α → Bool) (s : α) (c : Prop)
    [Decidable c] (hp : p s = false) :
    (if c then [s] else ([] : List α)).filter p = [] := by
  by_cases h : c <;> simp [h, hp]

theorem filter_ifPair_neg {α : Type} (p : α → Bool) (s₁ s₂ : α) (c₁ c₂ : Prop)
    [Decidable c₁] [Decidable c₂]
    (hp₁ : p s₁ = false) (hp₂ : p s₂ = false) :
    (if c₁ then [s₁] else if c₂ then [s₂] else ([] : List α)).filter p = [] := by
  by_cases h₁ : c₁ <;> by_cases h₂ : c₂ <;> simp [h₁, h₂, hp₁, hp₂]

theorem filter_ifTriple_pos {α : Type} (p : α → Bool) (s₁ s₂ s₃ : α)
    (c₁ c₂ c₃ : Prop) [Decidable c₁] [Decidable c₂] [Decidable c₃]
    (hp₁ : p s₁ = true) (hp₂ : p s₂ = true) (hp₃ : p s₃ = true) :
    (if c₁ then [s₁] else if c₂ then [s₂] else if c₃ then [s₃]
        else ([] : List α)).filter p =
      (if c₁ then [s₁] else if c₂ then [s₂] else if c₃ then [s₃]
        else ([] : List α)) := by
  by_cases h₁ : c₁ <;> by_cases h₂ : c₂ <;> by_cases h₃ : c₃ <;>
    simp [h₁, h₂, h₃, hp₁, hp₂, hp₃]

theorem length_ifSingleton_le {α : Type} (s : α) (c : Prop) [Decidable c] :
    (if c then [s] else ([] : List α)).length ≤ 1 := by
  by_cases h : c <;> simp [h]

theorem length_ifPair_le {α : Type} (s₁ s₂ : α) (c₁ c₂ : Prop)
    [Decidable c₁] [Decidable c₂] :
    (if c₁ then [s₁] else if c₂ then [s₂] else ([] : List α)).length ≤ 1 := by
  by_cases h₁ : c₁ <;> by_cases h₂ : c₂ <;> simp [h₁, h₂]

theorem length_ifTriple_le {α : Type} (s₁ s₂ s₃ : α) (c₁ c₂ c₃ : Prop)
    [Decidable c₁] [Decidable c₂] [Decidable c₃] :
    (if c₁ then [s₁] else if c₂ then [s₂] else if c₃ then [s₃]
        else ([] : List α)).length ≤ 1 := by
  by_cases h₁ : c₁ <;> by_cases h₂ : c₂ <;> by_cases h₃ : c₃ <;>
    simp [h₁, h₂, h₃]

theorem ifSingleton_sublist {α : Type} (s : α) (c : Prop) [Decidable c] :
    List.Sublist (if c then [s] else ([] : List α)) [s] := by
  by_cases h : c
  · rw [if_pos h]
  · rw [if_neg h]; exact List.nil_sublist _

theorem ifPair_sublist {α : Type} (s₁ s₂ : α) (c₁ c₂ : Prop)
    [Decidable c₁] [Decidable c₂] :
    List.Sublist (if c₁ then [s₁] else if c₂ then [s₂] else ([] : List α))
      [s₁, s₂] := by
  by_cases h₁ : c₁
  · rw [if_pos h₁]
    exact (List.nil_sublist _).cons₂ _
  · rw [if_neg h₁]
    by_cases h₂ : c₂
    · rw [if_pos h₂]
      exact (List.Sublist.refl _).cons _
    · rw [if_neg h₂]; exact List.nil_sublist _

theorem ifTriple_sublist {α : Type} (s₁ s₂ s₃ : α) (c₁ c₂ c₃ : Prop)
    [Decidable c₁] [Decidable c₂] [Decidable c₃] :
    List.Sublist
      (if c₁ then [s₁] else if c₂ then [s₂] else if c₃ then [s₃]
        else ([] : List α))
      [s₁, s₂, s₃] := by
  by_cases h₁ : c₁
  · rw [if_pos h₁]
    exact (List.nil_sublist _).cons₂ _
  · rw [if_neg h₁]
    by_cases h₂ : c₂
    · rw [if_pos h₂]
      exact ((List.nil_sublist _).cons₂ _).cons _
    · rw [if_neg h₂]
      by_cases h₃ : c₃
      · rw [if_pos h₃]
        exact ((List.Sublist.refl _).cons _).cons _
      · rw [if_neg h₃]; exact List.nil_sublist _

/-! Claim theorems. -/

/-- C1 (counterexample): the claim keys the DANGEROUS rule to the derived
condition category being `thunderstorm` and says the verdict is GOOD when
no rule matches; on the condition text "Tropical Storm" the category is
`other`, every category-keyed rule misses, yet the source returns
DANGEROUS, because line 154 also matches the substring `storm`. -/
theorem severity_rules_counterexample :
    specConditionCategory wTropicalStorm.weather.main ≠ .thunderstorm ∧
    specC1Verdict wTropicalStorm = "GOOD - Safe for swimming" ∧
    getSafetyAssessment wTropicalStorm = "DANGEROUS - DO NOT SWIM" :=
  ⟨by decide, by decide, by decide⟩

/-- C2: at the failing input — a payload identical to a benign clear-sky
one except that `main.temp` is structurally absent — the source raises no
error naming the field: the classifier is reached and, with both
temperature comparisons false under JS `undefined` semantics, returns the
GOOD verdict. -/
theorem missing_temp_silently_classified :
    wMissingTemp.main.temp = none ∧
    getSafetyAssessmentU wMissingTemp = "GOOD - Safe for swimming" :=
  ⟨rfl, by decide⟩

/-- C3: the classifier is deterministic — two calls with equal
observations and equal evaluation hours produce equal outputs (verdict,
recommendation list including order, and the optional UV advisory), and
`classify` is a function of nothing besides those two inputs. -/
theorem classify_deterministic (w₁ w₂ : OpenWeatherResponse) (h₁ h₂ : ℕ)
    (hw : w₁ = w₂) (hh : h₁ = h₂) :
    classify w₁ h₁ = classify w₂ h₂ := by
  subst hw; subst hh; rfl

/-- Witness for C3 at a concrete observation and hour. -/
theorem classify_deterministic_witness :
    wClear = wClear ∧ (12 : ℕ) = 12 ∧ classify wClear 12 = classify wClear 12 :=
  ⟨rfl, rfl, classify_deterministic wClear wClear 12 12 rfl rfl⟩

/-- C4 (counterexample): on the condition text "Thunderstorm with rain"
the spec-derived category is `thunderstorm`, yet the rain-keyed
recommendation rule fires as well: the output contains both the
immediate-exit warning and the rain caution, so it is not the case that
only rules keyed to the single derived category fire. -/
theorem category_exclusivity_counterexample :
    specConditionCategory wThunderRain.weather.main = .thunderstorm ∧
    thunderstormLine ∈ getRecommendations wThunderRain ∧
    rainLine ∈ getRecommendations wThunderRain :=
  ⟨by decide, by decide, by decide⟩

/-- C5: at the failing input — a provider gust of exactly 0 — the output
weather record carries no gust value at all (JS truthiness on line 124
sends 0 to the `undefined` branch), which is the same representation the
record gets when the provider omits the gust field entirely. -/
theorem gust_zero_conflated_with_absent :
    wGustZero.wind.gust = some 0 ∧
    (getBeachWeatherResult coneyIsland wGustZero 12 sampleTimestamp).weather.windGust
      = none ∧
    (getBeachWeatherResult coneyIsland wGustAbsent 12 sampleTimestamp).weather.windGust
      = none :=
  ⟨rfl, rfl, rfl⟩

/-- C9: whenever resolution fails, the error enumerates the full key
table: its attached key list is exactly `Object.keys(beachCoordinates)`,
which has 9 entries and no duplicates. -/
theorem resolve_notFound_enumerates_keys (name : String) (e : BeachError)
    (h : resolveBeach name = .error e) :
    e.keys = beachKeys ∧ beachKeys.length = 9 ∧ beachKeys.Nodup := by
  refine ⟨?_, by decide, by decide⟩
  simp only [resolveBeach] at h
  split at h
  · exact Except.noConfusion h
  · injection h with h
    subst h
    rfl

/-- Witness for C9 at the unresolvable name "Atlantis". -/
theorem resolve_notFound_witness :
    resolveBeach "Atlantis" = .error (.notFound "Atlantis" beachKeys) ∧
    (BeachError.notFound "Atlantis" beachKeys).keys = beachKeys ∧
    beachKeys.length = 9 ∧ beachKeys.Nodup :=
  ⟨rfl, resolve_notFound_enumerates_keys "Atlantis" _ rfl⟩

/-- C10: any observation whose lowercased condition text contains the
substring `storm` — not only `thunderstorm` — is assessed DANGEROUS
(source line 154). -/
theorem storm_text_dangerous (w : OpenWeatherResponse)
    (h : jsIncludes (toLowerCase w.weather.main) "storm" = true) :
    getSafetyAssessment w = "DANGEROUS - DO NOT SWIM" := by
  unfold getSafetyAssessment
  rw [if_pos (Or.inr h)]

/-- Witness for C10 at the condition text "Tropical Storm", whose
spec-derived category is `other`. -/
theorem storm_text_dangerous_witness :
    jsIncludes (toLowerCase wTropicalStorm.weather.main) "storm" = true ∧
    getSafetyAssessment wTropicalStorm = "DANGEROUS - DO NOT SWIM" :=
  ⟨by decide, storm_text_dangerous wTropicalStorm (by decide)⟩

/-- C7: the safety sub-record of the assembled result is computed from
the raw, unrounded payload — verdict, recommendations and UV advisory are
exactly the classifier functions applied to the raw payload — while the
display sub-record holds the rounded values; concretely, a raw air
temperature of 59.6°F makes the POOR below-60°F rule fire even though the
displayed temperature rounds to 60. -/
theorem classification_uses_raw_values :
    (∀ (b : BeachInfo) (w : OpenWeatherResponse) (hour : ℕ) (ts : String),
      (getBeachWeatherResult b w hour ts).safety.swimmingConditions =
        getSafetyAssessment w ∧
      (getBeachWeatherResult b w hour ts).safety.recommendations =
        getRecommendations w ∧
      (getBeachWeatherResult b w hour ts).safety.uvWarning = getUVWarning w hour ∧
      (getBeachWeatherResult b w hour ts).weather.temperature =
        jsRound w.main.temp ∧
      (getBeachWeatherResult b w hour ts).weather.feelsLike =
        jsRound w.main.feels_like ∧
      (getBeachWeatherResult b w hour ts).weather.windSpeed =
        jsRound w.wind.speed) ∧
    (getBeachWeatherResult coneyIsland wTemp596 12 sampleTimestamp).safety.swimmingConditions
      = "POOR - Swimming not recommended" ∧
    (getBeachWeatherResult coneyIsland wTemp596 12 sampleTimestamp).weather.temperature
      = 60 := by
  refine ⟨fun b w hour ts => ⟨rfl, rfl, rfl, rfl, rfl, rfl⟩, ?_, ?_⟩
  · show getSafetyAssessment wTemp596 = _
    unfold getSafetyAssessment
    rw [if_neg (by decide), if_pos (Or.inr (Or.inl (by norm_num [wTemp596])))]
  · show jsRound (59.6 : ℚ) = 60
    show Rat.floor ((59.6 : ℚ) + 1/2) = 60
    rw [show Rat.floor ((59.6 : ℚ) + 1/2) = ⌊(59.6 : ℚ) + 1/2⌋ from rfl,
      Int.floor_eq_iff]
    constructor <;> norm_num

/-- C6: the three wind advisories are mutually exclusive with gust taking
precedence — the wind-related entries of the recommendation list are
exactly: the severe-gust warning alone when a gust is present and
> 20 mph, else the rip-current warning alone when sustained wind > 15 mph,
else the moderate-wind caution alone when sustained wind > 10 mph, else
none. -/
theorem wind_advisories_exclusive (w : OpenWeatherResponse) :
    (getRecommendations w).filter windRelated = specWindAdvisory w := by
  unfold getRecommendations
  simp only [List.filter_append]
  rw [filter_ifSingleton_neg _ _ _
        (by decide : windRelated thunderstormLine = false),
      filter_ifSingleton_neg _ _ _ (by decide : windRelated rainLine = false),
      filter_ifSingleton_neg _ _ _
        (by decide : windRelated visibilityLine = false),
      filter_ifSingleton_neg _ _ _
        (by decide : windRelated humidityLine = false),
      filter_ifSingleton_neg _ _ _
        (by decide : windRelated excellentLine = false),
      filter_ifPair_neg _ _ _ _ _ (by decide : windRelated coldLine = false)
        (by decide : windRelated coolLine = false),
      filter_ifPair_neg _ _ _ _ _ (by decide : windRelated veryHotLine = false)
        (by decide : windRelated hotDayLine = false),
      filter_ifTriple_pos _ _ _ _ _ _ _ (by decide : windRelated gustLine = true)
        (by decide : windRelated ripCurrentLine = true)
        (by decide : windRelated moderateWindLine = true),
      show List.filter windRelated [lifeguardLine] = [] from by decide]
  simp only [List.nil_append, List.append_nil]
  cases hg : w.wind.gust with
  | none => simp [gustOver20, specWindAdvisory, windBySpeed, hg]
  | some v =>
    by_cases hv : v > 20
    · have h0 : (0 : ℚ) < v := lt_trans (by norm_num) hv
      have hgust : gustOver20 (some v) = true := by
        simp [gustOver20, hv]
        exact ne_of_gt h0
      rw [if_pos hgust]
      simp [specWindAdvisory, hg, hv]
    · have hgust : gustOver20 (some v) = false := by
        simp [gustOver20, hv]
      simp [hgust, specWindAdvisory, windBySpeed, hg, hv]

/-- C8: the recommendation list is never empty, always starts with the
lifeguard-hours reminder, is an ordered selection from the fixed
thirteen-line trigger sequence (so the entries that appear always follow
that order), and its length is between 1 and 8. -/
theorem recommendations_wellformed (w : OpenWeatherResponse) :
    getRecommendations w ≠ [] ∧
    (getRecommendations w).head? = some lifeguardLine ∧
    List.Sublist (getRecommendations w) masterRecommendationOrder ∧
    1 ≤ (getRecommendations w).length ∧
    (getRecommendations w).length ≤ 8 := by
  have hne : getRecommendations w ≠ [] := by
    show lifeguardLine :: _ ≠ []
    exact List.cons_ne_nil _ _
  refine ⟨hne, rfl, ?_, ?_, ?_⟩
  · unfold getRecommendations
    exact List.Sublist.append (List.Sublist.append (List.Sublist.append
      (List.Sublist.append (List.Sublist.append (List.Sublist.append
        (List.Sublist.append (List.Sublist.append
          (List.Sublist.refl [lifeguardLine])
          (ifSingleton_sublist thunderstormLine _))
          (ifSingleton_sublist rainLine _))
        (ifTriple_sublist gustLine ripCurrentLine moderateWindLine _ _ _))
        (ifPair_sublist coldLine coolLine _ _))
      (ifPair_sublist veryHotLine hotDayLine _ _))
      (ifSingleton_sublist visibilityLine _))
      (ifSingleton_sublist humidityLine _))
      (ifSingleton_sublist excellentLine _)
  · exact Nat.one_le_iff_ne_zero.mpr
      (fun hlen => hne (List.eq_nil_of_length_eq_zero hlen))
  · unfold getRecommendations
    simp only [List.length_append, List.length_singleton]
    have hA : (if jsIncludes (toLowerCase w.weather.main) "thunderstorm" = true
        then [thunderstormLine] else []).length ≤ 1 := length_ifSingleton_le _ _
    have hB : (if jsIncludes (toLowerCase w.weather.main) "rain" = true
        then [rainLine] else []).length ≤ 1 := length_ifSingleton_le _ _
    have hC : (if gustOver20 w.wind.gust = true then [gustLine]
        else if w.wind.speed > 15 then [ripCurrentLine]
        else if w.wind.speed > 10 then [moderateWindLine]
        else []).length ≤ 1 := length_ifTriple_le _ _ _ _ _ _
    have hD : (if w.main.temp < 65 then [coldLine]
        else if w.main.temp < 75 then [coolLine]
        else []).length ≤ 1 := length_ifPair_le _ _ _ _
    have hE : (if w.main.feels_like > 90 then [veryHotLine]
        else if w.main.feels_like > 85 then [hotDayLine]
        else []).length ≤ 1 := length_ifPair_le _ _ _ _
    have hF : (if w.visibility < 1000 then [visibilityLine]
        else []).length ≤ 1 := length_ifSingleton_le _ _
    have hG : (if w.main.humidity > 80 ∧ w.main.temp > 80 then [humidityLine]
        else []).length ≤ 1 := length_ifSingleton_le _ _
    have hH : (if jsIncludes (toLowerCase w.weather.main) "clear" = true ∧
          w.main.temp > 75 ∧ w.wind.speed < 10 then [excellentLine]
        else []).length ≤ 1 := length_ifSingleton_le _ _
    by_cases htemp : w.main.temp < 75
    · have h80 : ¬ w.main.temp > 80 := by linarith
      have h75 : ¬ w.main.temp > 75 := by linarith
      have hG0 : (if w.main.humidity > 80 ∧ w.main.temp > 80 then [humidityLine]
          else []).length = 0 := by
        rw [if_neg (fun hc => h80 hc.2)]; rfl
      have hH0 : (if jsIncludes (toLowerCase w.weather.main) "clear" = true ∧
            w.main.temp > 75 ∧ w.wind.speed < 10 then [excellentLine]
          else []).length = 0 := by
        rw [if_neg (fun hc => h75 hc.2.1)]; rfl
      omega
    · have hD0 : (if w.main.temp < 65 then [coldLine]
          else if w.main.temp < 75 then [coolLine]
          else []).length = 0 := by
        rw [if_neg (by linarith), if_neg htemp]; rfl
      omega

/-- C4 (amended): when the condition text contains a thunderstorm cue,
the derived category is `thunderstorm` (it is never shadowed by a broader
match) and the verdict is DANGEROUS; but in the recommendation list each
substring rule fires independently of the derivation, so the rain line
appears exactly when the text also contains a rain cue, not only when the
single derived category is `rain`. -/
theorem thunderstorm_never_shadowed (w : OpenWeatherResponse)
    (h : jsIncludes (toLowerCase w.weather.main) "thunderstorm" = true) :
    specConditionCategory w.weather.main = .thunderstorm ∧
    getSafetyAssessment w = "DANGEROUS - DO NOT SWIM" ∧
    thunderstormLine ∈ getRecommendations w ∧
    (rainLine ∈ getRecommendations w ↔
      jsIncludes (toLowerCase w.weather.main) "rain" = true) := by
  refine ⟨?_, ?_, ?_, ?_⟩
  · unfold specConditionCategory; rw [if_pos h]
  · unfold getSafetyAssessment; rw [if_pos (Or.inl h)]
  · unfold getRecommendations
    simp +decide [List.mem_append, mem_ifSingleton, mem_ifPair, mem_ifTriple, h]
  · unfold getRecommendations
    simp +decide [List.mem_append, mem_ifSingleton, mem_ifPair, mem_ifTriple]

/-- Witness for C4 at the condition text "Thunderstorm with rain". -/
theorem thunderstorm_never_shadowed_witness :
    jsIncludes (toLowerCase wThunderRain.weather.main) "thunderstorm" = true ∧
    (specConditionCategory wThunderRain.weather.main = .thunderstorm ∧
      getSafetyAssessment wThunderRain = "DANGEROUS - DO NOT SWIM" ∧
      thunderstormLine ∈ getRecommendations wThunderRain ∧
      (rainLine ∈ getRecommendations wThunderRain ↔
        jsIncludes (toLowerCase wThunderRain.weather.main) "rain" = true)) :=
  ⟨by decide, thunderstorm_never_shadowed wThunderRain (by decide)⟩

/-- C1 (amended): the verdict is the single most severe tier among the
independently checked severity rules — with the DANGEROUS rule keyed to
the condition category being `thunderstorm` OR the lowercased text
containing `storm`; POOR when wind speed > 15 mph, or air temperature
< 60°F, or category `rain`, or visibility < 1000 m; CAUTION when wind
speed > 10 mph, or air temperature < 70°F, or category `drizzle`, or
cloud cover > 80%; GOOD when no rule matches. -/
theorem verdict_most_severe (w : OpenWeatherResponse) :
    getSafetyAssessment w = tierMessage (mostSevere (matchedTiers w)) := by
  by_cases hT : jsIncludes (toLowerCase w.weather.main) "thunderstorm" = true
  · have hcat : specConditionCategory w.weather.main = .thunderstorm := by
      unfold specConditionCategory; rw [if_pos hT]
    have hD : dangerousMatches w := Or.inl hcat
    unfold getSafetyAssessment matchedTiers
    rw [if_pos (Or.inl hT), if_pos hD]
    by_cases hP : poorMatches w <;> by_cases hC : cautionMatches w <;>
      simp [hP, hC, mostSevere, Tier.sup, Tier.severity, tierMessage]
  · by_cases hS : jsIncludes (toLowerCase w.weather.main) "storm" = true
    · have hD : dangerousMatches w := Or.inr hS
      unfold getSafetyAssessment matchedTiers
      rw [if_pos (Or.inr hS), if_pos hD]
      by_cases hP : poorMatches w <;> by_cases hC : cautionMatches w <;>
        simp [hP, hC, mostSevere, Tier.sup, Tier.severity, tierMessage]
    · have hcatT : specConditionCategory w.weather.main ≠ .thunderstorm := by
        unfold specConditionCategory
        rw [if_neg hT]
        split_ifs <;> simp
      have hD : ¬ dangerousMatches w := by
        rintro (hc | hs)
        · exact hcatT hc
        · exact hS hs
      have hrain : specConditionCategory w.weather.main = .rain ↔
          jsIncludes (toLowerCase w.weather.main) "rain" = true := by
        unfold specConditionCategory
        rw [if_neg hT]
        by_cases hR : jsIncludes (toLowerCase w.weather.main) "rain" = true
        · simp [hR]
        · rw [if_neg hR]
          split_ifs <;> simp [hR]
      unfold getSafetyAssessment matchedTiers
      rw [if_neg (fun hor => hor.elim (fun x => hT x) (fun x => hS x)),
        if_neg hD]
      by_cases hPcode : w.wind.speed > 15 ∨ w.main.temp < 60 ∨
          jsIncludes (toLowerCase w.weather.main) "rain" = true ∨
          w.visibility < 1000
      · have hP : poorMatches w := by
          rcases hPcode with h | h | h | h
          · exact Or.inl h
          · exact Or.inr (Or.inl h)
          · exact Or.inr (Or.inr (Or.inl (hrain.mpr h)))
          · exact Or.inr (Or.inr (Or.inr h))
        rw [if_pos hPcode, if_pos hP]
        by_cases hC : cautionMatches w <;>
          simp [hC, mostSevere, Tier.sup, Tier.severity, tierMessage]
      · have hP : ¬ poorMatches w := by
          rintro (h | h | h | h)
          · exact hPcode (Or.inl h)
          · exact hPcode (Or.inr (Or.inl h))
          · exact hPcode (Or.inr (Or.inr (Or.inl (hrain.mp h))))
          · exact hPcode (Or.inr (Or.inr (Or.inr h)))
        have hR : ¬ jsIncludes (toLowerCase w.weather.main) "rain" = true :=
          fun h => hPcode (Or.inr (Or.inr (Or.inl h)))
        have hdriz : specConditionCategory w.weather.main = .drizzle ↔
            jsIncludes (toLowerCase w.weather.main) "drizzle" = true := by
          unfold specConditionCategory
          rw [if_neg hT, if_neg hR]
          by_cases hDz : jsIncludes (toLowerCase w.weather.main) "drizzle" = true
          · simp [hDz]
          · rw [if_neg hDz]
            split_ifs <;> simp [hDz]
        rw [if_neg hPcode, if_neg hP]
        by_cases hCcode : w.wind.speed > 10 ∨ w.main.temp < 70 ∨
            jsIncludes (toLowerCase w.weather.main) "drizzle" = true ∨
            w.clouds.all > 80
        · have hC : cautionMatches w := by
            rcases hCcode with h | h | h | h
            · exact Or.inl h
            · exact Or.inr (Or.inl h)
            · exact Or.inr (Or.inr (Or.inl (hdriz.mpr h)))
            · exact Or.inr (Or.inr (Or.inr h))
          rw [if_pos hCcode, if_pos hC]
          simp [mostSevere, Tier.sup, Tier.severity, tierMessage]
        · have hC : ¬ cautionMatches w := by
            rintro (h | h | h | h)
            · exact hCcode (Or.inl h)
            · exact hCcode (Or.inr (Or.inl h))
            · exact hCcode (Or.inr (Or.inr (Or.inl (hdriz.mp h))))
            · exact hCcode (Or.inr (Or.inr (Or.inr h)))
          rw [if_neg hCcode, if_neg hC]
          simp [mostSevere, tierMessage]

end SafeSwim
